import Mathlib

/- Shallow embedding of the rcp transport library: the packet wire-format
   code in src/rcp/packet.cc / includes/rcp/packet.hh and the socket layer
   in src/rcp/socket.cc / includes/rcp/socket.hh / includes/rcp/connection.hh.

   C++ exceptions are modelled with Except String: a throwing member function
   returns Except.error with the thrown message, and a normal return is
   Except.ok with the updated object (the code mutates in place; here state
   is passed explicitly).  Machine integers are Nat with explicit truncation
   where the C++ type truncates: the bit-field members of packet
   (mLength : 10 bits, mFlags : 3 bits) reduce stores modulo 2^10 / 2^3. -/

namespace rcp

/-- Maximum packet payload size (packet.hh). -/
def MAX_PKT_PAYLOAD_SIZE : Nat := 1024

/-- Size of a RCP packet header: 4 * sizeof(uint16) = 8 bytes (packet.hh). -/
def HEADER_SIZE : Nat := 8

/-- Maximum packet size: header plus maximum payload = 1032 (packet.hh). -/
def PACKET_SIZE : Nat := HEADER_SIZE + MAX_PKT_PAYLOAD_SIZE

/-- Maximum sequence number value, 30720 (packet.hh). -/
def MAX_SEQ_NUM : Nat := 30720

/-- A RCP packet (packet.hh).  The C++ object carries
    uint16 mSeqNum, uint16 mAckNum, a 10-bit bit-field mLength, a 3-bit
    bit-field mFlags, and a 1024-byte payload array mPayload.  The unused
    members (__window, __padd) are constant zero and never read, so they are
    omitted.  mPayload is the whole 1024-byte backing array, not just the
    meaningful prefix. -/
structure packet where
  mSeqNum : Nat
  mAckNum : Nat
  mLength : Nat
  mFlags : Nat
  mPayload : List Nat
deriving Repr, DecidableEq

/-- Flag bit FIN = 1 << 0 (packet.hh, struct packet::flags). -/
def packet.flags.FIN : Nat := 1

/-- Flag bit SYN = 1 << 1 (packet.hh, struct packet::flags). -/
def packet.flags.SYN : Nat := 2

/-- Flag bit ACK = 1 << 2 (packet.hh, struct packet::flags). -/
def packet.flags.ACK : Nat := 4

/-- packet::SequenceNumber accessor (packet.hh). -/
def packet.SequenceNumber (p : packet) : Nat := p.mSeqNum

/-- packet::AcknowledgmentNumber accessor (packet.hh). -/
def packet.AcknowledgmentNumber (p : packet) : Nat := p.mAckNum

/-- packet::Length accessor (packet.hh). -/
def packet.Length (p : packet) : Nat := p.mLength

/-- packet::IsFin accessor (packet.hh). -/
def packet.IsFin (p : packet) : Bool := p.mFlags &&& packet.flags.FIN ≠ 0

/-- packet::IsSyn accessor (packet.hh). -/
def packet.IsSyn (p : packet) : Bool := p.mFlags &&& packet.flags.SYN ≠ 0

/-- packet::IsAck accessor (packet.hh). -/
def packet.IsAck (p : packet) : Bool := p.mFlags &&& packet.flags.ACK ≠ 0

/-- packet::SetFin (packet.hh): mFlags |= FIN.  The store is into a 3-bit
    bit-field; the OR of two values below 8 is below 8, so no truncation
    can occur and none is written. -/
def packet.SetFin (p : packet) : packet := { p with mFlags := p.mFlags ||| packet.flags.FIN }

/-- packet::SetSyn (packet.hh): mFlags |= SYN. -/
def packet.SetSyn (p : packet) : packet := { p with mFlags := p.mFlags ||| packet.flags.SYN }

/-- packet::SetAck (packet.hh): mFlags |= ACK. -/
def packet.SetAck (p : packet) : packet := { p with mFlags := p.mFlags ||| packet.flags.ACK }

/-- packet::SetSequenceNumber (packet.cc lines 5-11): stores the value when
    it is below MAX_SEQ_NUM, otherwise throws "invalid sequence number"
    leaving the packet untouched.  The C++ parameter type is uint16; callers
    in this development always pass values below 2^16. -/
def packet.SetSequenceNumber (p : packet) (seqNum : Nat) : Except String packet :=
  if seqNum < MAX_SEQ_NUM then Except.ok { p with mSeqNum := seqNum }
  else Except.error "invalid sequence number"

/-- packet::SetAcknowledgmentNumber (packet.cc lines 13-19). -/
def packet.SetAcknowledgmentNumber (p : packet) (ackNum : Nat) : Except String packet :=
  if ackNum < MAX_SEQ_NUM then Except.ok { p with mAckNum := ackNum }
  else Except.error "invalid acknowledgment number"

/-- packet::SetLength (packet.cc lines 21-27): accepts values up to and
    including MAX_PKT_PAYLOAD_SIZE, otherwise throws.  The accepted value is
    stored into the 10-bit bit-field mLength (packet.hh line 236), so the
    store truncates modulo 2^10: the admissible value 1024 is stored as 0. -/
def packet.SetLength (p : packet) (length : Nat) : Except String packet :=
  if length ≤ MAX_PKT_PAYLOAD_SIZE then Except.ok { p with mLength := length % 2 ^ 10 }
  else Except.error "invalid payload length"

/-- packet::Clear (packet.cc lines 29-34): zeroes length, flags, sequence
    and acknowledgment numbers; the payload bytes are not touched. -/
def packet.Clear (p : packet) : packet :=
  { p with mLength := 0, mFlags := 0, mSeqNum := 0, mAckNum := 0 }

/-- packet::make (packet.cc lines 36-38): std::make_unique value-initializes
    the packet, so every field including the payload array is zero. -/
def packet.make : packet :=
  { mSeqNum := 0, mAckNum := 0, mLength := 0, mFlags := 0
  , mPayload := List.replicate MAX_PKT_PAYLOAD_SIZE 0 }

/-- Reading byte i of a packet::buffer_t.  The buffer is a fixed 1032-byte
    array of uint8, modelled as a List Nat; entries are reduced modulo 256
    because the C++ element type is byte, and positions beyond the supplied
    list model unwritten storage (read as 0; no theorem depends on them). -/
def readByte (buffer : List Nat) (i : Nat) : Nat := buffer.getD i 0 % 256

/-- The big-endian 16-bit sequence number stored in a buffer:
    (uint16(buffer[0]) << 8) + buffer[1] (packet.cc lines 45, 85). -/
def seqNumOf (buffer : List Nat) : Nat := readByte buffer 0 * 256 + readByte buffer 1

/-- The big-endian 16-bit acknowledgment number stored in a buffer:
    (uint16(buffer[2]) << 8) + buffer[3] (packet.cc lines 46, 86). -/
def ackNumOf (buffer : List Nat) : Nat := readByte buffer 2 * 256 + readByte buffer 3

/-- The memcpy in both decoders (packet.cc lines 74, 112): copies len bytes
    starting at buffer + HEADER_SIZE over the front of the payload array,
    leaving payload bytes from index len on unchanged. -/
def copyPayload (dst : List Nat) (buffer : List Nat) (len : Nat) : List Nat :=
  (List.range len).map (fun i => readByte buffer (HEADER_SIZE + i)) ++ dst.drop len

/-- packet::FromBuffer, the in-place decoder (packet.cc lines 80-114).
    Returns the updated packet on a normal return (including the early
    returns that leave the packet unchanged) and Except.error when one of
    the called setters throws.  The function is declared noexcept in C++,
    so the error case is a std::terminate there, reachable because the
    guard rejects seq/ack numbers strictly greater than MAX_SEQ_NUM while
    the setters reject values greater than or equal to it. -/
def packet.FromBuffer (p : packet) (buffer : List Nat) (n : Nat) : Except String packet :=
  if n < HEADER_SIZE ∨ n > PACKET_SIZE then Except.ok p
  else
    let seqNum := seqNumOf buffer
    let ackNum := ackNumOf buffer
    if seqNum > MAX_SEQ_NUM ∨ ackNum > MAX_SEQ_NUM then Except.ok p
    else
      let fl := readByte buffer 7
      match p.SetSequenceNumber seqNum with
      | Except.error e => Except.error e
      | Except.ok p1 =>
        match p1.SetAcknowledgmentNumber ackNum with
        | Except.error e => Except.error e
        | Except.ok p2 =>
          let p3 := if fl &&& packet.flags.ACK ≠ 0 then p2.SetAck else p2
          let p4 := if fl &&& packet.flags.FIN ≠ 0 then p3.SetFin else p3
          let p5 := if fl &&& packet.flags.SYN ≠ 0 then p4.SetSyn else p4
          match p5.SetLength (n - HEADER_SIZE) with
          | Except.error e => Except.error e
          | Except.ok p6 =>
            Except.ok (if p6.Length ≠ 0
              then { p6 with mPayload := copyPayload p6.mPayload buffer p6.Length }
              else p6)

/-- packet::fromBuffer, the allocating decoder (packet.cc lines 40-78).
    Returns Except.ok none when a guard rejects the buffer (C++ nullptr),
    Except.ok (some p) on success, and Except.error when a setter throws
    (a std::terminate in C++, since fromBuffer is noexcept). -/
def packet.fromBuffer (buffer : List Nat) (n : Nat) : Except String (Option packet) :=
  if n < HEADER_SIZE ∨ n > PACKET_SIZE then Except.ok none
  else
    let seqNum := seqNumOf buffer
    let ackNum := ackNumOf buffer
    if seqNum > MAX_SEQ_NUM ∨ ackNum > MAX_SEQ_NUM then Except.ok none
    else
      let fl := readByte buffer 7
      match packet.make.SetSequenceNumber seqNum with
      | Except.error e => Except.error e
      | Except.ok p1 =>
        match p1.SetAcknowledgmentNumber ackNum with
        | Except.error e => Except.error e
        | Except.ok p2 =>
          let p3 := if fl &&& packet.flags.ACK ≠ 0 then p2.SetAck else p2
          let p4 := if fl &&& packet.flags.FIN ≠ 0 then p3.SetFin else p3
          let p5 := if fl &&& packet.flags.SYN ≠ 0 then p4.SetSyn else p4
          match p5.SetLength (n - HEADER_SIZE) with
          | Except.error e => Except.error e
          | Except.ok p6 =>
            Except.ok (some (if p6.Length ≠ 0
              then { p6 with mPayload := copyPayload p6.mPayload buffer p6.Length }
              else p6))

/-- packet::makeBuffer (packet.cc lines 116-119): allocates one fresh
    1032-byte buffer.  The C++ array is uninitialized; the model takes the
    fresh content to be zero, and no theorem depends on it because Recv
    overwrites the bytes it later reads. -/
def packet.makeBuffer : List Nat := List.replicate PACKET_SIZE 0

/-- A sockaddr_in as the code uses it: family, 32-bit address (s_addr)
    and 16-bit port. -/
structure sockaddr_in where
  sin_family : Nat
  sin_addr : Nat
  sin_port : Nat
deriving Repr, DecidableEq

/-- The connection state relevant to the claims (connection.hh lines 30-43):
    the constructor stores the sockaddr_in it is given into the const member
    mPeer.  The socket back-reference, the uninitialized sequence counters
    and the congestion members are omitted. -/
structure connection where
  mPeer : sockaddr_in
deriving Repr, DecidableEq

/-- socket::Connect (socket.cc lines 28-33): zero-fills a local sockaddr_in
    with memset and constructs the connection from it.  The ip and port
    parameters are never written into peerAddr in the source, so the
    stored peer is the zeroed structure whatever arguments are passed. -/
def socket.Connect (ip : Nat) (port : Nat) : connection :=
  let peerAddr : sockaddr_in := { sin_family := 0, sin_addr := 0, sin_port := 0 }
  { mPeer := peerAddr }

/-- The buffer pool: socket::mBuffers, a std::vector of owned buffers
    (socket.hh line 44), modelled as a list whose last element is the
    vector's back. -/
def bufferPool : Type := List (List Nat)

/-- socket::AcquireBuffer (socket.cc lines 58-66): on an empty pool a fresh
    buffer is allocated, otherwise the vector's back is moved out and
    popped.  Returns the acquired buffer and the remaining pool. -/
def socket.AcquireBuffer (mBuffers : List (List Nat)) : List Nat × List (List Nat) :=
  if h : mBuffers = [] then (packet.makeBuffer, mBuffers)
  else (mBuffers.getLast h, mBuffers.dropLast)

/-- socket::ReleaseBuffer (socket.cc lines 68-70): push_back onto the
    pool. -/
def socket.ReleaseBuffer (mBuffers : List (List Nat)) (buffer : List Nat) : List (List Nat) :=
  mBuffers ++ [buffer]

/-- socket::Recv (socket.cc lines 35-50): acquires a buffer, lets recvfrom
    write the incoming datagram's n bytes into its front, decodes it into
    the caller's packet with FromBuffer, and releases the buffer.  The
    datagram argument is the byte sequence the substrate delivers and n the
    recvfrom return value.  When FromBuffer throws (it is called inside the
    noexcept Recv, so C++ terminates), control never reaches ReleaseBuffer:
    the model propagates the error with the acquired buffer unreturned. -/
def socket.Recv (mBuffers : List (List Nat)) (pkt : packet) (datagram : List Nat) (n : Nat) :
    Except String (List (List Nat) × packet) :=
  let acq := socket.AcquireBuffer mBuffers
  let buff := datagram.take n ++ acq.1.drop n
  match pkt.FromBuffer buff n with
  | Except.error e => Except.error e
  | Except.ok pkt1 => Except.ok (socket.ReleaseBuffer acq.2 buff, pkt1)

/-- The byte-count argument socket::Send passes to sendto (socket.cc
    lines 52-56): the constant packet::PACKET_SIZE, independent of the
    packet being sent.  (The bytes themselves are the raw object memory of
    the packet, packet.begin(), not a serialized header.) -/
def socket.SendByteCount (p : packet) : Nat := PACKET_SIZE

/-- Validity bound on the header numbers of a packet: both the sequence and
    the acknowledgment number are below MAX_SEQ_NUM. -/
def validNums (p : packet) : Prop :=
  p.SequenceNumber < MAX_SEQ_NUM ∧ p.AcknowledgmentNumber < MAX_SEQ_NUM

instance validNums.dec (p : packet) : Decidable (validNums p) :=
  decidable_of_iff (p.SequenceNumber < MAX_SEQ_NUM ∧ p.AcknowledgmentNumber < MAX_SEQ_NUM) Iff.rfl

/-- Inversion for a successful SetSequenceNumber call. -/
theorem setSequenceNumber_ok {p q : packet} {v : Nat}
    (h : p.SetSequenceNumber v = Except.ok q) :
    v < MAX_SEQ_NUM ∧ q = { p with mSeqNum := v } := by
  unfold packet.SetSequenceNumber at h
  split at h
  · exact ⟨by assumption, (Except.ok.inj h).symm⟩
  · cases h

/-- Inversion for a successful SetAcknowledgmentNumber call. -/
theorem setAcknowledgmentNumber_ok {p q : packet} {v : Nat}
    (h : p.SetAcknowledgmentNumber v = Except.ok q) :
    v < MAX_SEQ_NUM ∧ q = { p with mAckNum := v } := by
  unfold packet.SetAcknowledgmentNumber at h
  split at h
  · exact ⟨by assumption, (Except.ok.inj h).symm⟩
  · cases h

/-- Inversion for a successful SetLength call: the guard admitted the value
    and the 10-bit bit-field stored it modulo 2^10. -/
theorem setLength_ok {p q : packet} {v : Nat}
    (h : p.SetLength v = Except.ok q) :
    v ≤ MAX_PKT_PAYLOAD_SIZE ∧ q = { p with mLength := v % 2 ^ 10 } := by
  unfold packet.SetLength at h
  split at h
  · exact ⟨by assumption, (Except.ok.inj h).symm⟩
  · cases h

/-- SetAck only touches the flag bits. -/
theorem SetAck_mSeqNum (p : packet) : p.SetAck.mSeqNum = p.mSeqNum := rfl

/-- SetFin only touches the flag bits. -/
theorem SetFin_mSeqNum (p : packet) : p.SetFin.mSeqNum = p.mSeqNum := rfl

/-- SetSyn only touches the flag bits. -/
theorem SetSyn_mSeqNum (p : packet) : p.SetSyn.mSeqNum = p.mSeqNum := rfl

/-- SetAck only touches the flag bits. -/
theorem SetAck_mAckNum (p : packet) : p.SetAck.mAckNum = p.mAckNum := rfl

/-- SetFin only touches the flag bits. -/
theorem SetFin_mAckNum (p : packet) : p.SetFin.mAckNum = p.mAckNum := rfl

/-- SetSyn only touches the flag bits. -/
theorem SetSyn_mAckNum (p : packet) : p.SetSyn.mAckNum = p.mAckNum := rfl

set_option maxRecDepth 8192 in
/-- A normal return of the in-place decoder either left the packet untouched
    (one of the early returns) or wrote sequence and acknowledgment numbers
    that passed the setters' bound. -/
theorem FromBuffer_ok {p q : packet} {b : List Nat} {n : Nat}
    (h : p.FromBuffer b n = Except.ok q) :
    q = p ∨ (q.mSeqNum < MAX_SEQ_NUM ∧ q.mAckNum < MAX_SEQ_NUM) := by
  unfold packet.FromBuffer at h
  split at h
  · left; exact (Except.ok.inj h).symm
  · dsimp only at h
    split at h
    · left; exact (Except.ok.inj h).symm
    · split at h
      · cases h
      · split at h
        · cases h
        · split at h
          · cases h
          · right
            rename_i x1 p1 h1 x2 p2 h2 x3 p6 h3
            obtain ⟨hv, hp1⟩ := setSequenceNumber_ok h1
            obtain ⟨hw, hp2⟩ := setAcknowledgmentNumber_ok h2
            obtain ⟨hl, hp6⟩ := setLength_ok h3
            have hq : q = _ := (Except.ok.inj h).symm
            subst hq hp6 hp2 hp1
            constructor <;>
              simp [apply_ite packet.mSeqNum, apply_ite packet.mAckNum,
                SetAck_mSeqNum, SetFin_mSeqNum, SetSyn_mSeqNum,
                SetAck_mAckNum, SetFin_mAckNum, SetSyn_mAckNum] <;>
              assumption

set_option maxRecDepth 8192 in
/-- A packet produced by the allocating decoder carries sequence and
    acknowledgment numbers that passed the setters' bound. -/
theorem fromBuffer_ok_valid {q : packet} {b : List Nat} {n : Nat}
    (h : packet.fromBuffer b n = Except.ok (some q)) :
    q.mSeqNum < MAX_SEQ_NUM ∧ q.mAckNum < MAX_SEQ_NUM := by
  unfold packet.fromBuffer at h
  split at h
  · cases (Except.ok.inj h)
  · dsimp only at h
    split at h
    · cases (Except.ok.inj h)
    · split at h
      · cases h
      · split at h
        · cases h
        · split at h
          · cases h
          · rename_i x1 p1 h1 x2 p2 h2 x3 p6 h3
            obtain ⟨hv, hp1⟩ := setSequenceNumber_ok h1
            obtain ⟨hw, hp2⟩ := setAcknowledgmentNumber_ok h2
            obtain ⟨hl, hp6⟩ := setLength_ok h3
            have hq : some _ = some q := Except.ok.inj h
            have hq2 : q = _ := (Option.some.inj hq).symm
            subst hq2 hp6 hp2 hp1
            constructor <;>
              simp [apply_ite packet.mSeqNum, apply_ite packet.mAckNum,
                SetAck_mSeqNum, SetFin_mSeqNum, SetSyn_mSeqNum,
                SetAck_mAckNum, SetFin_mAckNum, SetSyn_mAckNum] <;>
              assumption

/-- Claim C1: decoding is claimed to return no packet without raising
    whenever the stored sequence or acknowledgment number is at least
    MAX_SEQ_NUM.  The code refutes this at exactly MAX_SEQ_NUM: the buffer
    whose first two bytes are 120 and 0 stores the big-endian sequence
    number 30720 = MAX_SEQ_NUM, passes the decoders' strict guard
    (which only rejects values strictly above MAX_SEQ_NUM), and then
    SetSequenceNumber throws "invalid sequence number" — inside the
    noexcept decoders this is a std::terminate, not a clean rejection. -/
theorem decodeSeqNumAtBoundThrows :
    seqNumOf [120, 0, 0, 0, 0, 0, 0, 0] = MAX_SEQ_NUM ∧
    packet.fromBuffer [120, 0, 0, 0, 0, 0, 0, 0] 8 = Except.error "invalid sequence number" ∧
    packet.make.FromBuffer [120, 0, 0, 0, 0, 0, 0, 0] 8 = Except.error "invalid sequence number" :=
  ⟨rfl, rfl, rfl⟩

/-- Claim C2: SetLength is claimed to succeed for every value up to
    MAX_PKT_PAYLOAD_SIZE = 1024 with Length() then returning that value.
    The code refutes this at exactly 1024: the guard admits the value but
    the 10-bit bit-field mLength stores 1024 mod 1024 = 0, so the call on a
    fresh packet succeeds yet returns the packet unchanged with length 0,
    not 1024. -/
theorem setLengthMaxPayloadTruncates :
    packet.make.SetLength 1024 = Except.ok packet.make ∧
    packet.make.Length = 0 ∧
    (1024 : Nat) ≤ MAX_PKT_PAYLOAD_SIZE :=
  ⟨rfl, rfl, by decide⟩

/-- Claim C3: the socket send path is claimed to transmit exactly
    HEADER_SIZE + payload_length bytes for a packet.  The code refutes
    this: socket::Send always passes the constant packet::PACKET_SIZE as
    the sendto byte count, so for the empty fresh packet it transmits 1032
    bytes while the claim demands HEADER_SIZE + 0 = 8. -/
theorem sendTransmitsConstantByteCount :
    socket.SendByteCount packet.make = PACKET_SIZE ∧
    HEADER_SIZE + packet.make.Length = HEADER_SIZE ∧
    socket.SendByteCount packet.make ≠ HEADER_SIZE + packet.make.Length :=
  ⟨rfl, rfl, by decide⟩

/-- Claim C4: the allocating and the in-place decoder are claimed to
    produce identical field values on identical input whatever the target
    packet's pre-existing state.  The code refutes this: decoding the all
    zero 8-byte header allocates a packet with no flags set, while decoding
    the same bytes into a packet whose FIN flag is set leaves FIN set,
    because FromBuffer only ORs decoded flag bits into mFlags and never
    clears stale ones. -/
theorem inPlaceDecodeKeepsStaleFlags :
    packet.fromBuffer (List.replicate 8 0) 8 = Except.ok (some packet.make) ∧
    packet.make.SetFin.FromBuffer (List.replicate 8 0) 8 = Except.ok packet.make.SetFin ∧
    packet.make.SetFin.IsFin = true ∧
    packet.make.IsFin = false :=
  ⟨rfl, rfl, rfl, rfl⟩

/-- Claim C5: Socket.Connect is claimed to return a connection whose stored
    peer equals the given remote address and port.  The code refutes this:
    Connect zero-fills the local sockaddr_in and never writes the ip and
    port arguments into it, so the connection built for address 1, port 2
    stores the all-zero peer. -/
theorem connectIgnoresPeerArguments :
    (socket.Connect 1 2).mPeer = { sin_family := 0, sin_addr := 0, sin_port := 0 } ∧
    (socket.Connect 1 2).mPeer.sin_addr ≠ 1 ∧
    (socket.Connect 1 2).mPeer.sin_port ≠ 2 :=
  ⟨rfl, by decide, by decide⟩

/-- Claim C6: for a 16-bit value below MAX_SEQ_NUM each number setter
    succeeds and the corresponding getter then returns the value; for a
    value at or above MAX_SEQ_NUM the setter throws and produces no updated
    packet, leaving the original untouched. -/
theorem setNumbersRoundTrip (p : packet) (v : Nat) (hv : v < 2 ^ 16) :
    (v < MAX_SEQ_NUM →
      (p.SetSequenceNumber v).map packet.SequenceNumber = Except.ok v ∧
      (p.SetAcknowledgmentNumber v).map packet.AcknowledgmentNumber = Except.ok v) ∧
    (MAX_SEQ_NUM ≤ v →
      p.SetSequenceNumber v = Except.error "invalid sequence number" ∧
      p.SetAcknowledgmentNumber v = Except.error "invalid acknowledgment number") := by
  constructor
  · intro h
    unfold packet.SetSequenceNumber packet.SetAcknowledgmentNumber
    rw [if_pos h, if_pos h]
    exact ⟨rfl, rfl⟩
  · intro h
    unfold packet.SetSequenceNumber packet.SetAcknowledgmentNumber
    rw [if_neg (not_lt.mpr h), if_neg (not_lt.mpr h)]
    exact ⟨rfl, rfl⟩

/-- Witness for setNumbersRoundTrip at the concrete value 10 on a fresh
    packet. -/
theorem setNumbersRoundTrip_witness :
    (packet.make.SetSequenceNumber 10).map packet.SequenceNumber = Except.ok 10 ∧
    (packet.make.SetAcknowledgmentNumber 10).map packet.AcknowledgmentNumber = Except.ok 10 :=
  (setNumbersRoundTrip packet.make 10 (by decide)).1 (by decide)

/-- Claim C7: Recv is claimed always to return the acquired buffer to the
    pool, even for malformed datagrams.  The code refutes this on the
    datagram storing sequence number 30720: FromBuffer throws inside the
    noexcept Recv before ReleaseBuffer runs (a std::terminate in C++), and
    at that point the pool, which held one buffer before the call, has
    already been emptied by AcquireBuffer and never gets the buffer back. -/
theorem recvDropsBufferWhenDecodeThrows :
    socket.Recv [packet.makeBuffer] packet.make [120, 0, 0, 0, 0, 0, 0, 0] 8 =
      Except.error "invalid sequence number" ∧
    (socket.AcquireBuffer [packet.makeBuffer]).2 = [] :=
  ⟨rfl, rfl⟩

/-- Claim C8: Clear zeroes the length, the flags and both header numbers,
    leaves the payload bytes alone, and is idempotent. -/
theorem clearZeroesAndIsIdempotent (p : packet) :
    p.Clear.Length = 0 ∧
    p.Clear.mFlags = 0 ∧
    p.Clear.SequenceNumber = 0 ∧
    p.Clear.AcknowledgmentNumber = 0 ∧
    p.Clear.mPayload = p.mPayload ∧
    p.Clear.Clear = p.Clear :=
  ⟨rfl, rfl, rfl, rfl, rfl, rfl⟩

set_option maxRecDepth 8192 in
/-- Claim C9: the in-place decoder leaves every field of the packet exactly
    as it was whenever the buffer length is out of range or the stored
    big-endian sequence or acknowledgment number exceeds MAX_SEQ_NUM: the
    call returns the packet it was given. -/
theorem fromBufferInvalidLeavesUnchanged (p : packet) (buffer : List Nat) (n : Nat)
    (h : n < HEADER_SIZE ∨ n > PACKET_SIZE ∨
         seqNumOf buffer > MAX_SEQ_NUM ∨ ackNumOf buffer > MAX_SEQ_NUM) :
    p.FromBuffer buffer n = Except.ok p := by
  unfold packet.FromBuffer
  by_cases h1 : n < HEADER_SIZE ∨ n > PACKET_SIZE
  · rw [if_pos h1]
  · rw [if_neg h1]
    dsimp only
    have h2 : seqNumOf buffer > MAX_SEQ_NUM ∨ ackNumOf buffer > MAX_SEQ_NUM := by
      rcases h with h | h | h | h
      · exact absurd (Or.inl h) h1
      · exact absurd (Or.inr h) h1
      · exact Or.inl h
      · exact Or.inr h
    rw [if_pos h2]

/-- Witness for fromBufferInvalidLeavesUnchanged: a 3-byte buffer is too
    short and the fresh packet comes back unchanged. -/
theorem fromBufferInvalidLeavesUnchanged_witness :
    packet.make.FromBuffer [] 3 = Except.ok packet.make :=
  fromBufferInvalidLeavesUnchanged packet.make [] 3 (by decide)

/-- Claim C10: a fresh packet has both header numbers zero, and every
    operation that completes without throwing — the number and length
    setters, the flag setters, Clear, and both decoders — preserves the
    bound that sequence and acknowledgment numbers stay below
    MAX_SEQ_NUM. -/
theorem packetNumbersInvariant :
    (packet.make.SequenceNumber = 0 ∧ packet.make.AcknowledgmentNumber = 0) ∧
    (∀ p v q, packet.SetSequenceNumber p v = Except.ok q → validNums p → validNums q) ∧
    (∀ p v q, packet.SetAcknowledgmentNumber p v = Except.ok q → validNums p → validNums q) ∧
    (∀ p v q, packet.SetLength p v = Except.ok q → validNums p → validNums q) ∧
    (∀ p, validNums p → validNums p.Clear) ∧
    (∀ p, validNums p → validNums p.SetFin ∧ validNums p.SetSyn ∧ validNums p.SetAck) ∧
    (∀ p b n q, packet.FromBuffer p b n = Except.ok q → validNums p → validNums q) ∧
    (∀ b n q, packet.fromBuffer b n = Except.ok (some q) → validNums q) := by
  refine ⟨⟨rfl, rfl⟩, ?_, ?_, ?_, ?_, ?_, ?_, ?_⟩
  · intro p v q h hp
    obtain ⟨hv, rfl⟩ := setSequenceNumber_ok h
    exact ⟨hv, hp.2⟩
  · intro p v q h hp
    obtain ⟨hv, rfl⟩ := setAcknowledgmentNumber_ok h
    exact ⟨hp.1, hv⟩
  · intro p v q h hp
    obtain ⟨hv, rfl⟩ := setLength_ok h
    exact hp
  · intro p hp
    constructor
    · show (0 : Nat) < MAX_SEQ_NUM
      decide
    · show (0 : Nat) < MAX_SEQ_NUM
      decide
  · intro p hp
    exact ⟨hp, hp, hp⟩
  · intro p b n q h hp
    rcases FromBuffer_ok h with rfl | hq
    · exact hp
    · exact hq
  · intro b n q h
    exact fromBuffer_ok_valid h

/-- Witness for packetNumbersInvariant: decoding the all-zero header into a
    fresh packet preserves the bound. -/
theorem packetNumbersInvariant_witness : validNums packet.make :=
  packetNumbersInvariant.2.2.2.2.2.2.1 packet.make (List.replicate 8 0) 8 packet.make
    rfl (by decide)

end rcp
